import Mathlib

/-!
Verification of the tourism-data client and statistics aggregation layer
(`src/lib/api/tour-api.ts`, `src/lib/api/stats-api.ts`, types from
`src/lib/types/tour.ts` / `src/lib/types/stats.ts`).

The TypeScript code is shallowly embedded:
* promises/exceptions become `Except TourAPIError`;
* the runtime `fetch` is an explicit transport argument
  `String → Nat → FetchOutcome β` giving the outcome of each attempt
  (attempt index) at a given URL, with the parsed JSON payload attached
  to successful responses;
* `process.env` is an explicit `Env` record;
* JavaScript falsy checks (`!x`, `x || d`) are modelled by `strFalsy`,
  `strOr` and `jsNumOr`;
* `String.prototype.trim` and substring search are re-implemented
  structurally (`jsTrim`, `containsSub`) so that all definitions evaluate
  inside the kernel;
* the floating-point expression `Number(((count / totalCount) * 100).toFixed(2))`
  is embedded as exact rational arithmetic with round-half-up to two
  decimals, computed by natural-number division (`pctCents`) and injected
  into `ℚ` with `mkRat`.
-/

deriving instance DecidableEq for Except

namespace TourApi

-- ==============================================
-- Constants (src/lib/api/tour-api.ts lines 52-60)
-- ==============================================

def BASE_URL : String := "https://apis.data.go.kr/B551011/KorService2"

def DEFAULT_MOBILE_OS : String := "ETC"

def DEFAULT_MOBILE_APP : String := "MyTrip"

def DEFAULT_TYPE : String := "json"

def DEFAULT_NUM_OF_ROWS : Nat := 10

def DEFAULT_PAGE_NO : Nat := 1

def REQUEST_TIMEOUT : Nat := 30000

def MAX_RETRIES : Nat := 3

def RETRY_DELAYS : List Nat := [1000, 2000, 4000]

-- ==============================================
-- JavaScript-semantics helpers
-- ==============================================

/-- Falsy test for an optional string: `undefined` and `""` are falsy. -/
def strFalsy : Option String → Bool
  | none => true
  | some s => s == ""

/-- `o || d` for strings: returns `d` when `o` is absent or empty. -/
def strOr (o : Option String) (d : String) : String :=
  match o with
  | none => d
  | some s => if s == "" then d else s

/-- `o || d` for numbers: returns `d` when `o` is absent or `0` (falsy). -/
def jsNumOr (o : Option Nat) (d : Nat) : Nat :=
  match o with
  | none => d
  | some n => if n == 0 then d else n

/-- `String.prototype.trim`: strip whitespace from both ends.
Implemented over the character list so it reduces in the kernel. -/
def jsTrim (s : String) : String :=
  ⟨((s.data.dropWhile Char.isWhitespace).reverse.dropWhile Char.isWhitespace).reverse⟩

/-- Substring search over character lists (kernel-reducible). -/
def subAux (pat : List Char) : List Char → Bool
  | [] => false
  | c :: rest => if List.isPrefixOf pat (c :: rest) then true else subAux pat rest

/-- `String.prototype.includes`-style substring test. -/
def containsSub (s pat : String) : Bool :=
  if List.isPrefixOf pat.data s.data then true else subAux pat.data s.data

-- ==============================================
-- Error taxonomy (tour-api.ts lines 69-94)
-- ==============================================

/-- `TourAPIErrorType` enum. -/
inductive TourAPIErrorType where
  | API_KEY_MISSING
  | API_KEY_INVALID
  | NETWORK_ERROR
  | TIMEOUT_ERROR
  | HTTP_ERROR
  | API_ERROR
  | PARSE_ERROR
  | VALIDATION_ERROR
  | UNKNOWN_ERROR
deriving DecidableEq, Repr

/-- `TourAPIError` (the single error family).  `originalMessage` models
`originalError?.message` (only the message of the wrapped `Error` is kept). -/
structure TourAPIError where
  message : String
  statusCode : Option Nat := none
  originalMessage : Option String := none
  errorType : TourAPIErrorType := .UNKNOWN_ERROR
deriving DecidableEq, Repr

-- ==============================================
-- Environment and common parameters (lines 159-202)
-- ==============================================

/-- The two environment variables consulted by `getServiceKey`. -/
structure Env where
  NEXT_PUBLIC_TOUR_API_KEY : Option String := none
  TOUR_API_KEY : Option String := none
deriving DecidableEq, Repr

/-- `getServiceKey`: `NEXT_PUBLIC_TOUR_API_KEY || TOUR_API_KEY`, throwing
`API_KEY_MISSING` when the result is falsy. -/
def getServiceKey (env : Env) : Except TourAPIError String :=
  let serviceKey : Option String :=
    if strFalsy env.NEXT_PUBLIC_TOUR_API_KEY then env.TOUR_API_KEY
    else env.NEXT_PUBLIC_TOUR_API_KEY
  if strFalsy serviceKey then
    .error { message := "API 키가 설정되지 않았습니다. NEXT_PUBLIC_TOUR_API_KEY 또는 TOUR_API_KEY 환경변수를 설정해주세요."
             errorType := .API_KEY_MISSING }
  else
    .ok (serviceKey.getD "")

/-- `getCommonParams`. -/
def getCommonParams (env : Env) : Except TourAPIError (List (String × Option String)) :=
  match getServiceKey env with
  | .error e => .error e
  | .ok key =>
      .ok [("serviceKey", some key), ("MobileOS", some DEFAULT_MOBILE_OS),
           ("MobileApp", some DEFAULT_MOBILE_APP), ("_type", some DEFAULT_TYPE)]

/-- `buildQueryString`: `undefined` values are omitted; insertion order kept.
URL-encoding is not modelled (it is injective on the inputs used here). -/
def buildQueryString (params : List (String × Option String)) : String :=
  String.intercalate "&"
    (params.filterMap fun kv => kv.2.map (fun v => kv.1 ++ "=" ++ v))

-- ==============================================
-- HTTP transport model and fetchWithRetry (lines 216-301)
-- ==============================================

/-- A resolved `fetch` response; `json` is the payload that
`response.json()` would produce. -/
structure Response (β : Type) where
  status : Nat
  statusText : String
  json : β
deriving DecidableEq, Repr

/-- `response.ok`: status in the 2xx range. -/
def responseOk {β : Type} (r : Response β) : Bool :=
  200 ≤ r.status && r.status ≤ 299

/-- Outcome of one `fetch` attempt: a resolved response, an `AbortError`
rejection (timeout fired), or another rejection (`isTypeError` marks
`TypeError`, the class thrown on network failure). -/
inductive FetchOutcome (β : Type) where
  | resp (r : Response β)
  | abortError
  | jsError (isTypeError : Bool) (message : String)
deriving DecidableEq, Repr

/-- An error arriving at the `catch` block of `fetchWithRetry`: the
`TourAPIError` thrown on a non-2xx status, an `AbortError`, or another
runtime error. -/
inductive Caught where
  | tour (e : TourAPIError)
  | abort
  | js (isTypeError : Bool) (message : String)
deriving DecidableEq, Repr

/-- `error.message` of a caught error (all modelled errors are `Error`s). -/
def caughtMessage : Caught → String
  | .tour e => e.message
  | .abort => "AbortError"
  | .js _ m => m

/-- Error-type selection for a non-2xx response (lines 237-242). -/
def httpStatusErrorType (status : Nat) : TourAPIErrorType :=
  if status == 401 || status == 403 then .API_KEY_INVALID
  else if status == 408 then .TIMEOUT_ERROR
  else .HTTP_ERROR

/-- The `TourAPIError` thrown for a non-2xx response (lines 244-249). -/
def httpStatusError {β : Type} (r : Response β) : TourAPIError :=
  { message := "HTTP " ++ toString r.status ++ ": " ++ r.statusText
    statusCode := some r.status
    errorType := httpStatusErrorType r.status }

/-- The `TourAPIError` thrown when the attempt was aborted (lines 260-265). -/
def timeoutTourError : TourAPIError :=
  { message := "요청 시간이 초과되었습니다."
    statusCode := some 408
    originalMessage := some "AbortError"
    errorType := .TIMEOUT_ERROR }

/-- `isNetworkError` test in the retry-exhaustion branch (lines 273-278):
`TypeError`, or a message containing fetch/network/Network. -/
def isNetworkCaught : Caught → Bool
  | .js true _ => true
  | .js false m => containsSub m "fetch" || containsSub m "network" || containsSub m "Network"
  | .tour e =>
      containsSub e.message "fetch" || containsSub e.message "network" ||
        containsSub e.message "Network"
  | .abort => false

/-- The wrapping `TourAPIError` built when retries are exhausted
(lines 284-289): no status code; kind `NETWORK_ERROR` or `UNKNOWN_ERROR`. -/
def maxRetryError (retryCount : Nat) (c : Caught) : TourAPIError :=
  { message := "요청 실패 (" ++ toString (retryCount + 1) ++ "회 시도): " ++ caughtMessage c
    originalMessage := some (caughtMessage c)
    errorType := if isNetworkCaught c then .NETWORK_ERROR else .UNKNOWN_ERROR }

/-- The `try` block of one attempt: a 2xx response is returned, a non-2xx
response throws `httpStatusError` (which the surrounding `catch` receives),
and a rejected `fetch` is received by the `catch` as-is. -/
def attemptCaught {β : Type} : FetchOutcome β → Except Caught (Response β)
  | .resp r => if responseOk r then .ok r else .error (.tour (httpStatusError r))
  | .abortError => .error .abort
  | .jsError te m => .error (.js te m)

/-- Result of `fetchWithRetry`, instrumented with the number of `fetch`
attempts actually made and the delays awaited between them. -/
structure RetryOutcome (β : Type) where
  result : Except TourAPIError (Response β)
  attempts : Nat
  delays : List Nat
deriving DecidableEq, Repr

/-- Recursion core of `fetchWithRetry` (lines 216-301).  `remaining`
encodes the source's `retryCount >= MAX_RETRIES` test structurally:
it is kept equal to `MAX_RETRIES - retryCount`, so `remaining = 0`
exactly when `retryCount >= MAX_RETRIES`.  An `AbortError` (timeout) is
rethrown as `timeoutTourError` before the retry test and is therefore
never retried. -/
def fetchWithRetryAux {β : Type} (fetchf : Nat → FetchOutcome β)
    (remaining retryCount : Nat) : RetryOutcome β :=
  match attemptCaught (fetchf retryCount) with
    | .ok r => { result := .ok r, attempts := 1, delays := [] }
    | .error .abort => { result := .error timeoutTourError, attempts := 1, delays := [] }
    | .error c =>
        match remaining with
        | 0 => { result := .error (maxRetryError retryCount c), attempts := 1, delays := [] }
        | remaining' + 1 =>
            let delay := RETRY_DELAYS.getD retryCount (RETRY_DELAYS.getLastD 0)
            let out := fetchWithRetryAux fetchf remaining' (retryCount + 1)
            { result := out.result, attempts := out.attempts + 1, delays := delay :: out.delays }

/-- `fetchWithRetry(url, options, retryCount)`; the `url`/`options` are
already fixed inside `fetchf`. -/
def fetchWithRetry {β : Type} (fetchf : Nat → FetchOutcome β) (retryCount : Nat := 0) :
    RetryOutcome β :=
  fetchWithRetryAux fetchf (MAX_RETRIES - retryCount) retryCount

-- ==============================================
-- Response envelope (src/lib/types/tour.ts, TourAPIResponse<T>)
-- ==============================================

/-- `response.header`.  `resultMsg` is declared as a plain string but the
parser guards it with `|| fallback`, so it is modelled optional. -/
structure EnvelopeHeader where
  resultCode : String
  resultMsg : Option String := none
deriving DecidableEq, Repr

/-- The `items.item` field: absent/falsy, a single object, or an array. -/
inductive ItemField (T : Type) where
  | absent
  | single (t : T)
  | arr (l : List T)
deriving DecidableEq, Repr

/-- The `body.items` wrapper object. -/
structure ItemsWrapper (T : Type) where
  item : ItemField T
deriving DecidableEq, Repr

/-- `response.body`; every field is guarded with `?.`/`||` in the code,
so all are modelled optional. -/
structure EnvelopeBody (T : Type) where
  items : Option (ItemsWrapper T) := none
  numOfRows : Option Nat := none
  pageNo : Option Nat := none
  totalCount : Option Nat := none
deriving DecidableEq, Repr

/-- `TourAPIResponse<T>` with the outer `response` wrapper elided (the
code destructures it immediately). -/
structure Envelope (T : Type) where
  header : EnvelopeHeader
  body : Option (EnvelopeBody T) := none
deriving DecidableEq, Repr

/-- The recognized service-key error codes (tour-api.ts lines 315-318). -/
def isApiKeyErrorCode (resultCode : String) : Bool :=
  resultCode == "SERVICE_KEY_IS_NOT_REGISTERED" ||
    resultCode == "SERVICE_KEY_IS_NOT_VALID" ||
      resultCode == "SERVICE_KEY_IS_NULL"

/-- `parseAPIResponse` (lines 306-343).  On a non-`"0000"` result code it
throws; otherwise it normalizes `body?.items?.item` to an array. -/
def parseAPIResponse {T : Type} (data : Envelope T) : Except TourAPIError (List T) :=
  if data.header.resultCode != "0000" then
    let resultCode := data.header.resultCode
    let resultMsg := strOr data.header.resultMsg "알 수 없는 에러"
    let errorType : TourAPIErrorType :=
      if isApiKeyErrorCode resultCode then .API_KEY_INVALID else .API_ERROR
    .error { message := "API 에러: " ++ resultMsg ++ " (코드: " ++ resultCode ++ ")"
             errorType := errorType }
  else
    match data.body with
    | none => .ok []
    | some b =>
        match b.items with
        | none => .ok []
        | some iw =>
            match iw.item with
            | .absent => .ok []
            | .single t => .ok [t]
            | .arr l => .ok l

-- ==============================================
-- Entity records (src/lib/types/tour.ts, src/lib/types/stats.ts)
-- ==============================================

/-- `AreaCode`. -/
structure AreaCode where
  code : String
  name : String
  rnum : Option String := none
deriving DecidableEq, Repr

/-- `TourItem`: pass-through listing row; only identity fields are kept,
the remaining fields are never interpreted by the core. -/
structure TourItem where
  contentid : String := ""
  contenttypeid : String := ""
  title : String := ""
  addr1 : String := ""
  mapx : String := ""
  mapy : String := ""
deriving DecidableEq, Repr

/-- `TourDetail`: opaque pass-through record. -/
structure TourDetail where
  contentid : String := ""
  title : String := ""
deriving DecidableEq, Repr

/-- `TourIntro`: opaque pass-through record. -/
structure TourIntro where
  contentid : String := ""
  contenttypeid : String := ""
deriving DecidableEq, Repr

/-- `TourImage`: opaque pass-through record. -/
structure TourImage where
  contentid : String := ""
  originimgurl : String := ""
deriving DecidableEq, Repr

/-- `PetTourInfo`: opaque pass-through record. -/
structure PetTourInfo where
  contentid : String := ""
deriving DecidableEq, Repr

/-- `TourListResponse`. -/
structure TourListResponse where
  items : List TourItem
  totalCount : Nat
  numOfRows : Nat
  pageNo : Nat
deriving DecidableEq, Repr

/-- `TourDetailResponse`. -/
structure TourDetailResponse where
  item : TourDetail
deriving DecidableEq, Repr

/-- `TourIntroResponse`. -/
structure TourIntroResponse where
  item : TourIntro
deriving DecidableEq, Repr

/-- `TourImageResponse`. -/
structure TourImageResponse where
  items : List TourImage
  totalCount : Nat
deriving DecidableEq, Repr

/-- `PetTourInfoResponse`. -/
structure PetTourInfoResponse where
  item : PetTourInfo
deriving DecidableEq, Repr

-- ==============================================
-- Parameter records
-- ==============================================

/-- `AreaCodeParams`. -/
structure AreaCodeParams where
  numOfRows : Option Nat := none
  pageNo : Option Nat := none
deriving DecidableEq, Repr

/-- `AreaBasedListParams`. -/
structure AreaBasedListParams where
  areaCode : Option String := none
  contentTypeId : Option String := none
  numOfRows : Option Nat := none
  pageNo : Option Nat := none
deriving DecidableEq, Repr

/-- `SearchKeywordParams`; `keyword` is required in the TS type but the
code guards against a missing value, hence `Option`. -/
structure SearchKeywordParams where
  keyword : Option String := none
  areaCode : Option String := none
  contentTypeId : Option String := none
  numOfRows : Option Nat := none
  pageNo : Option Nat := none
deriving DecidableEq, Repr

/-- `DetailParams`. -/
structure DetailParams where
  contentId : String
deriving DecidableEq, Repr

/-- `DetailIntroParams`. -/
structure DetailIntroParams where
  contentId : String
  contentTypeId : String
deriving DecidableEq, Repr

/-- Parameters of `getDetailImage` (`DetailParams & {numOfRows?; pageNo?}`). -/
structure DetailImageParams where
  contentId : String
  numOfRows : Option Nat := none
  pageNo : Option Nat := none
deriving DecidableEq, Repr

-- ==============================================
-- Tourism data client operations (tour-api.ts lines 354-698)
-- ==============================================

/-- The transport: outcome of attempt `n` of a `fetch` against `url`,
carrying the parsed JSON payload of type `β` on resolved responses. -/
def Transport (β : Type) : Type := String → Nat → FetchOutcome β

/-- `getAreaCode` (lines 354-381).  The second component counts the
`fetch` attempts actually made (0 when no network call happened). -/
def getAreaCode (env : Env) (params : AreaCodeParams)
    (fetchf : Transport (Envelope AreaCode)) :
    Except TourAPIError (List AreaCode) × Nat :=
  match getCommonParams env with
  | .error e => (.error e, 0)
  | .ok common =>
      let queryParams := common ++
        [("numOfRows", some (toString (jsNumOr params.numOfRows DEFAULT_NUM_OF_ROWS))),
         ("pageNo", some (toString (jsNumOr params.pageNo DEFAULT_PAGE_NO)))]
      let url := BASE_URL ++ "/areaCode2?" ++ buildQueryString queryParams
      let out := fetchWithRetry (fetchf url)
      match out.result with
      | .error e => (.error e, out.attempts)
      | .ok response =>
          match parseAPIResponse response.json with
          | .error e => (.error e, out.attempts)
          | .ok items => (.ok items, out.attempts)

/-- `getAreaBasedList` (lines 390-430). -/
def getAreaBasedList (env : Env) (params : AreaBasedListParams)
    (fetchf : Transport (Envelope TourItem)) :
    Except TourAPIError TourListResponse × Nat :=
  match getCommonParams env with
  | .error e => (.error e, 0)
  | .ok common =>
      let queryParams := common ++
        [("areaCode", params.areaCode),
         ("contentTypeId", params.contentTypeId),
         ("numOfRows", some (toString (jsNumOr params.numOfRows DEFAULT_NUM_OF_ROWS))),
         ("pageNo", some (toString (jsNumOr params.pageNo DEFAULT_PAGE_NO)))]
      let url := BASE_URL ++ "/areaBasedList2?" ++ buildQueryString queryParams
      let out := fetchWithRetry (fetchf url)
      match out.result with
      | .error e => (.error e, out.attempts)
      | .ok response =>
          match parseAPIResponse response.json with
          | .error e => (.error e, out.attempts)
          | .ok items =>
              let body := response.json.body
              (.ok { items := items
                     totalCount := jsNumOr (body.bind EnvelopeBody.totalCount) 0
                     numOfRows := jsNumOr (body.bind EnvelopeBody.numOfRows) DEFAULT_NUM_OF_ROWS
                     pageNo := jsNumOr (body.bind EnvelopeBody.pageNo) DEFAULT_PAGE_NO },
               out.attempts)

/-- The `ValidationError` thrown by `searchKeyword` (lines 440-449). -/
def keywordValidationError : TourAPIError :=
  { message := "검색 키워드는 필수입니다.", errorType := .VALIDATION_ERROR }

/-- `searchKeyword` (lines 437-485): validates the keyword before any
network activity. -/
def searchKeyword (env : Env) (params : SearchKeywordParams)
    (fetchf : Transport (Envelope TourItem)) :
    Except TourAPIError TourListResponse × Nat :=
  if strFalsy params.keyword || jsTrim (params.keyword.getD "") == "" then
    (.error keywordValidationError, 0)
  else
    match getCommonParams env with
    | .error e => (.error e, 0)
    | .ok common =>
        let queryParams := common ++
          [("keyword", some (jsTrim (params.keyword.getD ""))),
           ("areaCode", params.areaCode),
           ("contentTypeId", params.contentTypeId),
           ("numOfRows", some (toString (jsNumOr params.numOfRows DEFAULT_NUM_OF_ROWS))),
           ("pageNo", some (toString (jsNumOr params.pageNo DEFAULT_PAGE_NO)))]
        let url := BASE_URL ++ "/searchKeyword2?" ++ buildQueryString queryParams
        let out := fetchWithRetry (fetchf url)
        match out.result with
        | .error e => (.error e, out.attempts)
        | .ok response =>
            match parseAPIResponse response.json with
            | .error e => (.error e, out.attempts)
            | .ok items =>
                let body := response.json.body
                (.ok { items := items
                       totalCount := jsNumOr (body.bind EnvelopeBody.totalCount) 0
                       numOfRows := jsNumOr (body.bind EnvelopeBody.numOfRows) DEFAULT_NUM_OF_ROWS
                       pageNo := jsNumOr (body.bind EnvelopeBody.pageNo) DEFAULT_PAGE_NO },
                 out.attempts)

/-- The `ValidationError` thrown on a missing content ID. -/
def contentIdValidationError : TourAPIError :=
  { message := "콘텐츠 ID는 필수입니다.", errorType := .VALIDATION_ERROR }

/-- The `ValidationError` thrown on a missing content-type ID. -/
def contentTypeIdValidationError : TourAPIError :=
  { message := "콘텐츠 타입 ID는 필수입니다.", errorType := .VALIDATION_ERROR }

/-- `new TourAPIError('상세 정보를 찾을 수 없습니다.')` (line 521): the
error type argument is omitted, so it defaults to `UNKNOWN_ERROR`. -/
def detailNotFoundError : TourAPIError :=
  { message := "상세 정보를 찾을 수 없습니다." }

/-- `getDetailCommon` (lines 492-535). -/
def getDetailCommon (env : Env) (params : DetailParams)
    (fetchf : Transport (Envelope TourDetail)) :
    Except TourAPIError TourDetailResponse × Nat :=
  if params.contentId == "" || jsTrim params.contentId == "" then
    (.error contentIdValidationError, 0)
  else
    match getCommonParams env with
    | .error e => (.error e, 0)
    | .ok common =>
        let queryParams := common ++ [("contentId", some (jsTrim params.contentId))]
        let url := BASE_URL ++ "/detailCommon2?" ++ buildQueryString queryParams
        let out := fetchWithRetry (fetchf url)
        match out.result with
        | .error e => (.error e, out.attempts)
        | .ok response =>
            match parseAPIResponse response.json with
            | .error e => (.error e, out.attempts)
            | .ok items =>
                match items.head? with
                | none => (.error detailNotFoundError, out.attempts)
                | some detail => (.ok { item := detail }, out.attempts)

/-- `new TourAPIError('소개 정보를 찾을 수 없습니다.')` (line 583). -/
def introNotFoundError : TourAPIError :=
  { message := "소개 정보를 찾을 수 없습니다." }

/-- `getDetailIntro` (lines 542-597). -/
def getDetailIntro (env : Env) (params : DetailIntroParams)
    (fetchf : Transport (Envelope TourIntro)) :
    Except TourAPIError TourIntroResponse × Nat :=
  if params.contentId == "" || jsTrim params.contentId == "" then
    (.error contentIdValidationError, 0)
  else if params.contentTypeId == "" || jsTrim params.contentTypeId == "" then
    (.error contentTypeIdValidationError, 0)
  else
    match getCommonParams env with
    | .error e => (.error e, 0)
    | .ok common =>
        let queryParams := common ++
          [("contentId", some (jsTrim params.contentId)),
           ("contentTypeId", some (jsTrim params.contentTypeId))]
        let url := BASE_URL ++ "/detailIntro2?" ++ buildQueryString queryParams
        let out := fetchWithRetry (fetchf url)
        match out.result with
        | .error e => (.error e, out.attempts)
        | .ok response =>
            match parseAPIResponse response.json with
            | .error e => (.error e, out.attempts)
            | .ok items =>
                match items.head? with
                | none => (.error introNotFoundError, out.attempts)
                | some intro => (.ok { item := intro }, out.attempts)

/-- `getDetailImage` (lines 604-648). -/
def getDetailImage (env : Env) (params : DetailImageParams)
    (fetchf : Transport (Envelope TourImage)) :
    Except TourAPIError TourImageResponse × Nat :=
  if params.contentId == "" || jsTrim params.contentId == "" then
    (.error contentIdValidationError, 0)
  else
    match getCommonParams env with
    | .error e => (.error e, 0)
    | .ok common =>
        let queryParams := common ++
          [("contentId", some (jsTrim params.contentId)),
           ("numOfRows", some (toString (jsNumOr params.numOfRows DEFAULT_NUM_OF_ROWS))),
           ("pageNo", some (toString (jsNumOr params.pageNo DEFAULT_PAGE_NO)))]
        let url := BASE_URL ++ "/detailImage2?" ++ buildQueryString queryParams
        let out := fetchWithRetry (fetchf url)
        match out.result with
        | .error e => (.error e, out.attempts)
        | .ok response =>
            match parseAPIResponse response.json with
            | .error e => (.error e, out.attempts)
            | .ok items =>
                let body := response.json.body
                (.ok { items := items
                       totalCount := jsNumOr (body.bind EnvelopeBody.totalCount) 0 },
                 out.attempts)

/-- `new TourAPIError('반려동물 정보를 찾을 수 없습니다.')` (line 684). -/
def petNotFoundError : TourAPIError :=
  { message := "반려동물 정보를 찾을 수 없습니다." }

/-- `getDetailPetTour` (lines 655-698). -/
def getDetailPetTour (env : Env) (params : DetailParams)
    (fetchf : Transport (Envelope PetTourInfo)) :
    Except TourAPIError PetTourInfoResponse × Nat :=
  if params.contentId == "" || jsTrim params.contentId == "" then
    (.error contentIdValidationError, 0)
  else
    match getCommonParams env with
    | .error e => (.error e, 0)
    | .ok common =>
        let queryParams := common ++ [("contentId", some (jsTrim params.contentId))]
        let url := BASE_URL ++ "/detailPetTour2?" ++ buildQueryString queryParams
        let out := fetchWithRetry (fetchf url)
        match out.result with
        | .error e => (.error e, out.attempts)
        | .ok response =>
            match parseAPIResponse response.json with
            | .error e => (.error e, out.attempts)
            | .ok items =>
                match items.head? with
                | none => (.error petNotFoundError, out.attempts)
                | some petInfo => (.ok { item := petInfo }, out.attempts)

-- ==============================================
-- Statistics aggregation (src/lib/api/stats-api.ts)
-- ==============================================

/-- `Object.values(CONTENT_TYPE)` in declaration order
(src/lib/types/tour.ts, the 8 fixed content types). -/
def CONTENT_TYPE_values : List String :=
  ["12", "14", "15", "25", "28", "32", "38", "39"]

/-- `TYPE_NAME_MAP` (stats-api.ts lines 36-45). -/
def TYPE_NAME_MAP : List (String × String) :=
  [("12", "관광지"), ("14", "문화시설"), ("15", "축제/행사"), ("25", "여행코스"),
   ("28", "레포츠"), ("32", "숙박"), ("38", "쇼핑"), ("39", "음식점")]

/-- `RegionStats` (src/lib/types/stats.ts). -/
structure RegionStats where
  areaCode : String
  name : String
  count : Nat
deriving DecidableEq, Repr

/-- `TypeStats` (src/lib/types/stats.ts).  `percentage` is the number
the code stores (two-decimal value). -/
structure TypeStats where
  contentTypeId : String
  name : String
  count : Nat
  percentage : ℚ
deriving DecidableEq, Repr

/-- `StatsSummary` without the wall-clock `lastUpdated` stamp (real time
is outside the embedding). -/
structure StatsSummary where
  totalCount : Nat
  topRegions : List RegionStats
  topTypes : List TypeStats
deriving DecidableEq, Repr

/-- `count / totalCount * 100`, rounded half-up to two decimals and
expressed in hundredths of a percent:
`⌊count / totalCount * 10000 + 1/2⌋ = (20000 * count + totalCount) / (2 * totalCount)`.
This is the exact-arithmetic reading of
`Number(((count / totalCount) * 100).toFixed(2))`. -/
def pctCents (count totalCount : Nat) : Nat :=
  (20000 * count + totalCount) / (2 * totalCount)

/-- The per-region task body inside `getRegionStats` (lines 67-88):
a failing region call is logged and mapped to `null`. -/
def regionStatOf (env : Env) (fetchList : Transport (Envelope TourItem))
    (areaCode : AreaCode) : Option RegionStats :=
  match (getAreaBasedList env
      { areaCode := some areaCode.code, numOfRows := some 1, pageNo := some 1 }
      fetchList).1 with
  | .ok response =>
      some { areaCode := areaCode.code, name := areaCode.name, count := response.totalCount }
  | .error _ => none

/-- `getRegionStats` (lines 56-113): area-code lookup, then a parallel
fan-out whose failures are dropped (`Promise.allSettled` + filter). -/
def getRegionStats (env : Env) (fetchArea : Transport (Envelope AreaCode))
    (fetchList : Transport (Envelope TourItem)) :
    Except TourAPIError (List RegionStats) :=
  match (getAreaCode env { numOfRows := some 100, pageNo := some 1 } fetchArea).1 with
  | .error e => .error e
  | .ok areaCodes =>
      if areaCodes.length == 0 then .ok []
      else .ok (areaCodes.filterMap (regionStatOf env fetchList))

/-- The per-type task body inside `getTypeStats` (lines 130-152):
`percentage` is initialized to 0 and a failing call maps to `null`. -/
def typeStatOf (env : Env) (fetchList : Transport (Envelope TourItem))
    (contentTypeId : String) : Option TypeStats :=
  match (getAreaBasedList env
      { contentTypeId := some contentTypeId, numOfRows := some 1, pageNo := some 1 }
      fetchList).1 with
  | .ok response =>
      some { contentTypeId := contentTypeId
             name := strOr (TYPE_NAME_MAP.lookup contentTypeId) ("타입 " ++ contentTypeId)
             count := response.totalCount
             percentage := 0 }
  | .error _ => none

/-- `getTypeStats` (lines 124-189): one query per content type, failures
dropped, then percentages computed over the successful subset; a zero
total short-circuits before the division. -/
def getTypeStats (env : Env) (fetchList : Transport (Envelope TourItem)) :
    Except TourAPIError (List TypeStats) :=
  let typeStats := CONTENT_TYPE_values.filterMap (typeStatOf env fetchList)
  let totalCount := typeStats.foldl (fun sum stat => sum + stat.count) 0
  if totalCount == 0 then .ok typeStats
  else
    .ok (typeStats.map fun stat =>
      { stat with percentage := mkRat (pctCents stat.count totalCount) 100 })

/-- Stable insertion of `x` into a list sorted by `le`. -/
def sortInsert {α : Type} (le : α → α → Bool) (x : α) : List α → List α
  | [] => [x]
  | y :: ys => if le x y then x :: y :: ys else y :: sortInsert le x ys

/-- Stable insertion sort; models `Array.prototype.sort` with the
comparator `(a, b) => b.count - a.count` (descending, stable). -/
def sortBy {α : Type} (le : α → α → Bool) : List α → List α
  | [] => []
  | x :: xs => sortInsert le x (sortBy le xs)

/-- The comparator `(a, b) => b.count - a.count` on region stats. -/
def regionDesc (a b : RegionStats) : Bool := b.count ≤ a.count

/-- The comparator `(a, b) => b.count - a.count` on type stats. -/
def typeDesc (a b : TypeStats) : Bool := b.count ≤ a.count

/-- `getStatsSummary` (lines 200-240): region and type stats in
parallel, total over type counts, top-3 of each by descending count. -/
def getStatsSummary (env : Env) (fetchArea : Transport (Envelope AreaCode))
    (fetchList : Transport (Envelope TourItem)) :
    Except TourAPIError StatsSummary :=
  match getRegionStats env fetchArea fetchList, getTypeStats env fetchList with
  | .error e, _ => .error e
  | _, .error e => .error e
  | .ok regionStats, .ok typeStats =>
      let totalCount := typeStats.foldl (fun sum stat => sum + stat.count) 0
      let topRegions := (sortBy regionDesc regionStats).take 3
      let topTypes := (sortBy typeDesc typeStats).take 3
      .ok { totalCount := totalCount, topRegions := topRegions, topTypes := topTypes }

-- ==============================================
-- Helper lemmas about fetchWithRetryAux
-- ==============================================

/-- An attempt outcome that reaches the retry path: a failure other than
an `AbortError` (i.e. a non-2xx response or a non-abort rejection). -/
def retryableFail {β : Type} : FetchOutcome β → Bool
  | .resp r => !responseOk r
  | .abortError => false
  | .jsError _ _ => true

/-- An attempt that resolves with a 2xx response. -/
def attemptOk {β : Type} : FetchOutcome β → Bool
  | .resp r => responseOk r
  | .abortError => false
  | .jsError _ _ => false

theorem attemptOk_caught {β : Type} (o : FetchOutcome β) (h : attemptOk o = true) :
    ∃ r, attemptCaught o = .ok r := by
  cases o with
  | resp r =>
      refine ⟨r, ?_⟩
      simp only [attemptOk] at h
      simp [attemptCaught, h]
  | abortError => simp [attemptOk] at h
  | jsError te m => simp [attemptOk] at h

theorem retryableFail_caught {β : Type} (o : FetchOutcome β)
    (h : retryableFail o = true) :
    ∃ c, attemptCaught o = .error c ∧ c ≠ Caught.abort := by
  cases o with
  | resp r =>
      simp only [retryableFail, Bool.not_eq_true'] at h
      exact ⟨.tour (httpStatusError r), by simp [attemptCaught, h], by simp⟩
  | abortError => simp [retryableFail] at h
  | jsError te m => exact ⟨.js te m, rfl, by simp⟩

theorem fetchWithRetryAux_ok {β : Type} (fetchf : Nat → FetchOutcome β)
    (remaining n : Nat) (r : Response β) (h : attemptCaught (fetchf n) = .ok r) :
    fetchWithRetryAux fetchf remaining n = { result := .ok r, attempts := 1, delays := [] } := by
  rw [fetchWithRetryAux.eq_def, h]

theorem fetchWithRetryAux_abort {β : Type} (fetchf : Nat → FetchOutcome β)
    (remaining n : Nat) (h : fetchf n = .abortError) :
    fetchWithRetryAux fetchf remaining n =
      { result := .error timeoutTourError, attempts := 1, delays := [] } := by
  rw [fetchWithRetryAux.eq_def, h]; rfl

theorem fetchWithRetryAux_exhaust {β : Type} (fetchf : Nat → FetchOutcome β)
    (n : Nat) (c : Caught) (h : attemptCaught (fetchf n) = .error c)
    (hc : c ≠ Caught.abort) :
    fetchWithRetryAux fetchf 0 n =
      { result := .error (maxRetryError n c), attempts := 1, delays := [] } := by
  rw [fetchWithRetryAux.eq_def, h]
  cases c with
  | tour e => rfl
  | abort => exact absurd rfl hc
  | js te m => rfl

theorem fetchWithRetryAux_retry {β : Type} (fetchf : Nat → FetchOutcome β)
    (remaining n : Nat) (c : Caught) (h : attemptCaught (fetchf n) = .error c)
    (hc : c ≠ Caught.abort) :
    fetchWithRetryAux fetchf (remaining + 1) n =
      { result := (fetchWithRetryAux fetchf remaining (n + 1)).result
        attempts := (fetchWithRetryAux fetchf remaining (n + 1)).attempts + 1
        delays := RETRY_DELAYS.getD n (RETRY_DELAYS.getLastD 0) ::
          (fetchWithRetryAux fetchf remaining (n + 1)).delays } := by
  rw [fetchWithRetryAux.eq_def, h]
  cases c with
  | tour e => rfl
  | abort => exact absurd rfl hc
  | js te m => rfl

-- ==============================================
-- Claim C1: retry schedule of fetchWithRetry
-- ==============================================

/-- A transport whose every attempt times out (the fetch is aborted). -/
def wAbort : Nat → FetchOutcome Unit := fun _ => .abortError

/-- A transport answering HTTP 500 on every attempt. -/
def w500 : Nat → FetchOutcome Unit := fun _ => .resp ⟨500, "Internal Server Error", ()⟩

/-- A transport failing at the network level twice, then succeeding. -/
def wFlaky : Nat → FetchOutcome Unit := fun n =>
  match n with
  | 0 => .jsError true "fetch failed"
  | 1 => .jsError true "fetch failed"
  | _ => .resp ⟨200, "OK", ()⟩

/-- C1 counterexample: the claim says that on ANY single-attempt failure,
timeouts included, `fetchWithRetry` retries up to 3 more attempts and an
all-failing request terminates after exactly 4 attempts.  Against a
transport whose every attempt times out, the code performs exactly one
attempt, waits no delay, and surfaces the timeout error immediately. -/
theorem c1_counterexample :
    (fetchWithRetry wAbort).attempts = 1 ∧
    ¬ ((fetchWithRetry wAbort).attempts = 4) ∧
    (fetchWithRetry wAbort).delays = [] ∧
    (fetchWithRetry wAbort).result = .error timeoutTourError := by
  decide

/-- C1 (amended): for non-timeout failures (network errors and non-2xx
HTTP statuses) `fetchWithRetry` retries up to `MAX_RETRIES = 3`
additional attempts, waiting 1s, 2s, 4s between consecutive attempts,
and returns the response of the first attempt that succeeds; when all
4 attempts fail this way it yields a terminal error after exactly 4
attempts. A timeout (aborted attempt), however, is surfaced immediately
as `timeoutTourError` without any retry. -/
theorem c1_retry_schedule {β : Type} (fetchf : Nat → FetchOutcome β) :
    (∀ k, k ≤ MAX_RETRIES → (∀ j, j < k → retryableFail (fetchf j) = true) →
      attemptOk (fetchf k) = true →
      ∃ r, attemptCaught (fetchf k) = .ok r ∧
        fetchWithRetry fetchf =
          { result := .ok r, attempts := k + 1, delays := RETRY_DELAYS.take k }) ∧
    ((∀ j, j ≤ MAX_RETRIES → retryableFail (fetchf j) = true) →
      (∃ e, (fetchWithRetry fetchf).result = .error e) ∧
      (fetchWithRetry fetchf).attempts = MAX_RETRIES + 1 ∧
      (fetchWithRetry fetchf).delays = RETRY_DELAYS) ∧
    (fetchf 0 = .abortError →
      fetchWithRetry fetchf =
        { result := .error timeoutTourError, attempts := 1, delays := [] }) := by
  have base : fetchWithRetry fetchf = fetchWithRetryAux fetchf 3 0 := rfl
  refine ⟨?_, ?_, ?_⟩
  · intro k hk hfail hok
    obtain ⟨r, hr⟩ := attemptOk_caught _ hok
    refine ⟨r, hr, ?_⟩
    have hk3 : k ≤ 3 := hk
    interval_cases k
    · rw [base, fetchWithRetryAux_ok _ _ _ r hr]
      rfl
    · obtain ⟨c0, hc0, hn0⟩ := retryableFail_caught _ (hfail 0 (by omega))
      rw [base, fetchWithRetryAux_retry _ _ _ c0 hc0 hn0,
        fetchWithRetryAux_ok _ _ _ r hr]
      rfl
    · obtain ⟨c0, hc0, hn0⟩ := retryableFail_caught _ (hfail 0 (by omega))
      obtain ⟨c1, hc1, hn1⟩ := retryableFail_caught _ (hfail 1 (by omega))
      rw [base, fetchWithRetryAux_retry _ _ _ c0 hc0 hn0,
        fetchWithRetryAux_retry _ _ _ c1 hc1 hn1,
        fetchWithRetryAux_ok _ _ _ r hr]
      rfl
    · obtain ⟨c0, hc0, hn0⟩ := retryableFail_caught _ (hfail 0 (by omega))
      obtain ⟨c1, hc1, hn1⟩ := retryableFail_caught _ (hfail 1 (by omega))
      obtain ⟨c2, hc2, hn2⟩ := retryableFail_caught _ (hfail 2 (by omega))
      rw [base, fetchWithRetryAux_retry _ _ _ c0 hc0 hn0,
        fetchWithRetryAux_retry _ _ _ c1 hc1 hn1,
        fetchWithRetryAux_retry _ _ _ c2 hc2 hn2,
        fetchWithRetryAux_ok _ _ _ r hr]
      rfl
  · intro hfail
    obtain ⟨c0, hc0, hn0⟩ := retryableFail_caught _ (hfail 0 (by decide))
    obtain ⟨c1, hc1, hn1⟩ := retryableFail_caught _ (hfail 1 (by decide))
    obtain ⟨c2, hc2, hn2⟩ := retryableFail_caught _ (hfail 2 (by decide))
    obtain ⟨c3, hc3, hn3⟩ := retryableFail_caught _ (hfail 3 (by decide))
    have main : fetchWithRetry fetchf =
        { result := .error (maxRetryError 3 c3), attempts := 4, delays := RETRY_DELAYS } := by
      rw [base, fetchWithRetryAux_retry _ _ _ c0 hc0 hn0,
        fetchWithRetryAux_retry _ _ _ c1 hc1 hn1,
        fetchWithRetryAux_retry _ _ _ c2 hc2 hn2,
        fetchWithRetryAux_exhaust _ _ c3 hc3 hn3]
      rfl
    refine ⟨⟨maxRetryError 3 c3, ?_⟩, ?_, ?_⟩ <;> rw [main]
    all_goals rfl
  · intro h
    rw [base, fetchWithRetryAux_abort _ _ _ h]

/-- Witness for C1: the three parts of `c1_retry_schedule` instantiated
at concrete transports (fail-twice-then-succeed, always-500, always-abort). -/
theorem c1_retry_schedule_witness :
    (∃ r, attemptCaught (wFlaky 2) = .ok r ∧
      fetchWithRetry wFlaky =
        { result := .ok r, attempts := 2 + 1, delays := RETRY_DELAYS.take 2 }) ∧
    ((∃ e, (fetchWithRetry w500).result = .error e) ∧
      (fetchWithRetry w500).attempts = MAX_RETRIES + 1 ∧
      (fetchWithRetry w500).delays = RETRY_DELAYS) ∧
    fetchWithRetry wAbort =
      { result := .error timeoutTourError, attempts := 1, delays := [] } :=
  ⟨(c1_retry_schedule wFlaky).1 2 (by decide)
      (fun j hj => by interval_cases j <;> decide) (by decide),
   (c1_retry_schedule w500).2.1 (fun j _ => rfl),
   (c1_retry_schedule wAbort).2.2 rfl⟩

-- ==============================================
-- Claim C2: error kinds surfaced after retry exhaustion
-- ==============================================

/-- Shared helper: when all 4 attempts fail retryably, the outcome is the
wrapping error built from the last caught failure. -/
theorem fetchWithRetry_exhaust_all {β : Type} (fetchf : Nat → FetchOutcome β)
    (h : ∀ j, j ≤ 3 → retryableFail (fetchf j) = true) :
    ∃ c3, attemptCaught (fetchf 3) = .error c3 ∧
      fetchWithRetry fetchf =
        { result := .error (maxRetryError 3 c3), attempts := 4, delays := RETRY_DELAYS } := by
  obtain ⟨c0, hc0, hn0⟩ := retryableFail_caught _ (h 0 (by omega))
  obtain ⟨c1, hc1, hn1⟩ := retryableFail_caught _ (h 1 (by omega))
  obtain ⟨c2, hc2, hn2⟩ := retryableFail_caught _ (h 2 (by omega))
  obtain ⟨c3, hc3, hn3⟩ := retryableFail_caught _ (h 3 (by omega))
  refine ⟨c3, hc3, ?_⟩
  have base : fetchWithRetry fetchf = fetchWithRetryAux fetchf 3 0 := rfl
  rw [base, fetchWithRetryAux_retry _ _ _ c0 hc0 hn0,
    fetchWithRetryAux_retry _ _ _ c1 hc1 hn1,
    fetchWithRetryAux_retry _ _ _ c2 hc2 hn2,
    fetchWithRetryAux_exhaust _ _ c3 hc3 hn3]
  rfl

/-- An attempt that resolves with a non-2xx HTTP response. -/
def httpFailOutcome {β : Type} : FetchOutcome β → Bool
  | .resp r => !responseOk r
  | _ => false

/-- An attempt that rejects with a `TypeError` (network-level failure). -/
def typeErrorOutcome {β : Type} : FetchOutcome β → Bool
  | .jsError true _ => true
  | _ => false

/-- A transport rejecting with a `TypeError` on every attempt. -/
def wNet : Nat → FetchOutcome Unit := fun _ => .jsError true "connection refused"

/-- C2 counterexample: against a transport answering HTTP 500 on every
attempt, the error surfaced after retries exhaust is the max-retry
wrapper with kind `UNKNOWN_ERROR` and NO status code — not an
`HTTP_ERROR` carrying the final status as the claim states. -/
theorem c2_counterexample :
    (fetchWithRetry w500).result =
      .error { message := "요청 실패 (4회 시도): HTTP 500: Internal Server Error"
               statusCode := none
               originalMessage := some "HTTP 500: Internal Server Error"
               errorType := .UNKNOWN_ERROR } ∧
    TourAPIErrorType.UNKNOWN_ERROR ≠ TourAPIErrorType.HTTP_ERROR := by
  decide

/-- C2 (amended): when every attempt fails with a non-2xx HTTP response,
the error surfaced after retries exhaust carries no status code and is
never of kind `HTTP_ERROR`: it is `UNKNOWN_ERROR`, or `NETWORK_ERROR`
when the per-attempt message happens to contain fetch/network.  When
every attempt fails with a network-level `TypeError`, the surfaced error
is of kind `NETWORK_ERROR`, distinguished from HTTP-level failures. -/
theorem c2_exhaust_kinds {β : Type} (fetchf : Nat → FetchOutcome β) :
    ((∀ j, j ≤ MAX_RETRIES → httpFailOutcome (fetchf j) = true) →
      ∃ e, (fetchWithRetry fetchf).result = .error e ∧ e.statusCode = none ∧
        e.errorType ≠ .HTTP_ERROR ∧
        (e.errorType = .NETWORK_ERROR ∨ e.errorType = .UNKNOWN_ERROR)) ∧
    ((∀ j, j ≤ MAX_RETRIES → typeErrorOutcome (fetchf j) = true) →
      ∃ e, (fetchWithRetry fetchf).result = .error e ∧ e.statusCode = none ∧
        e.errorType = .NETWORK_ERROR) := by
  constructor
  · intro h
    have hr : ∀ j, j ≤ 3 → retryableFail (fetchf j) = true := by
      intro j hj
      have := h j hj
      cases hf : fetchf j <;> rw [hf] at this <;>
        simp_all [httpFailOutcome, retryableFail]
    obtain ⟨c3, hc3, main⟩ := fetchWithRetry_exhaust_all fetchf hr
    refine ⟨maxRetryError 3 c3, by rw [main], rfl, ?_, ?_⟩ <;>
      cases hnc : isNetworkCaught c3 <;> simp [maxRetryError, hnc]
  · intro h
    have hr : ∀ j, j ≤ 3 → retryableFail (fetchf j) = true := by
      intro j hj
      have := h j hj
      cases hf : fetchf j <;> rw [hf] at this <;>
        simp_all [typeErrorOutcome, retryableFail]
    obtain ⟨c3, hc3, main⟩ := fetchWithRetry_exhaust_all fetchf hr
    have h3 := h 3 (by decide)
    cases hf3 : fetchf 3 with
    | resp r => rw [hf3] at h3; simp [typeErrorOutcome] at h3
    | abortError => rw [hf3] at h3; simp [typeErrorOutcome] at h3
    | jsError te m =>
        rw [hf3] at h3
        cases te with
        | false => simp [typeErrorOutcome] at h3
        | true =>
            rw [hf3] at hc3
            simp only [attemptCaught, Except.error.injEq] at hc3
            refine ⟨maxRetryError 3 c3, by rw [main], rfl, ?_⟩
            rw [← hc3]
            simp [maxRetryError, isNetworkCaught]

/-- Witness for C2: both parts of `c2_exhaust_kinds` at concrete
transports (always HTTP 500, and always a `TypeError` rejection). -/
theorem c2_exhaust_kinds_witness :
    (∃ e, (fetchWithRetry w500).result = .error e ∧ e.statusCode = none ∧
      e.errorType ≠ .HTTP_ERROR ∧
      (e.errorType = .NETWORK_ERROR ∨ e.errorType = .UNKNOWN_ERROR)) ∧
    (∃ e, (fetchWithRetry wNet).result = .error e ∧ e.statusCode = none ∧
      e.errorType = .NETWORK_ERROR) :=
  ⟨(c2_exhaust_kinds w500).1 (fun _ _ => rfl),
   (c2_exhaust_kinds wNet).2 (fun _ _ => rfl)⟩

-- ==============================================
-- Claims C3 and C4: parseAPIResponse
-- ==============================================

/-- C3: for every envelope whose header `resultCode` differs from the
success sentinel `"0000"`, `parseAPIResponse` throws (never returns a
value); the error kind is `API_KEY_INVALID` exactly when the code is one
of the three recognized service-key error codes and `API_ERROR`
otherwise, and the error message carries the envelope's `resultCode` and
`resultMsg`. -/
theorem c3_parse_error_envelope {T : Type} (data : Envelope T)
    (h : data.header.resultCode ≠ "0000") :
    parseAPIResponse data =
      .error { message := "API 에러: " ++ strOr data.header.resultMsg "알 수 없는 에러" ++
                 " (코드: " ++ data.header.resultCode ++ ")"
               statusCode := none
               originalMessage := none
               errorType := if isApiKeyErrorCode data.header.resultCode then
                 .API_KEY_INVALID else .API_ERROR } := by
  simp [parseAPIResponse, bne_iff_ne, h]

/-- Envelope with a recognized service-key error code. -/
def badKeyEnv : Envelope Nat :=
  { header := { resultCode := "SERVICE_KEY_IS_NULL", resultMsg := some "KEY ERROR" } }

/-- Envelope with an unrecognized non-success result code and no message. -/
def badOtherEnv : Envelope Nat :=
  { header := { resultCode := "9999" } }

/-- Witness for C3: a recognized key-error code maps to
`API_KEY_INVALID`, any other non-success code to `API_ERROR`, with
`resultCode`/`resultMsg` carried in the message. -/
theorem c3_parse_error_envelope_witness :
    parseAPIResponse badKeyEnv =
      .error { message := "API 에러: KEY ERROR (코드: SERVICE_KEY_IS_NULL)"
               errorType := .API_KEY_INVALID } ∧
    parseAPIResponse badOtherEnv =
      .error { message := "API 에러: 알 수 없는 에러 (코드: 9999)"
               errorType := .API_ERROR } :=
  ⟨(c3_parse_error_envelope badKeyEnv (by decide)).trans (by decide),
   (c3_parse_error_envelope badOtherEnv (by decide)).trans (by decide)⟩

/-- C4: for every envelope with the success sentinel result code,
`parseAPIResponse` returns without error: `[]` when `body`, `body.items`
or the `item` field is absent, `[t]` when the `item` field is a single
object `t`, and the array itself when the `item` field is an array. -/
theorem c4_parse_success {T : Type} (data : Envelope T)
    (h : data.header.resultCode = "0000") :
    (data.body = none → parseAPIResponse data = .ok []) ∧
    (∀ b, data.body = some b → b.items = none → parseAPIResponse data = .ok []) ∧
    (∀ b iw, data.body = some b → b.items = some iw → iw.item = .absent →
      parseAPIResponse data = .ok []) ∧
    (∀ b iw t, data.body = some b → b.items = some iw → iw.item = .single t →
      parseAPIResponse data = .ok [t]) ∧
    (∀ b iw l, data.body = some b → b.items = some iw → iw.item = .arr l →
      parseAPIResponse data = .ok l) := by
  refine ⟨?_, ?_, ?_, ?_, ?_⟩
  · intro hb; simp [parseAPIResponse, h, hb]
  · intro b hb hi; simp [parseAPIResponse, h, hb, hi]
  · intro b iw hb hi hitem; simp [parseAPIResponse, h, hb, hi, hitem]
  · intro b iw t hb hi hitem; simp [parseAPIResponse, h, hb, hi, hitem]
  · intro b iw l hb hi hitem; simp [parseAPIResponse, h, hb, hi, hitem]

/-- Success envelope with no `body`. -/
def okEnvNoBody : Envelope Nat := { header := { resultCode := "0000" } }

/-- Success envelope with a `body` but no `items`. -/
def okEnvNoItems : Envelope Nat :=
  { header := { resultCode := "0000" }, body := some { totalCount := some 0 } }

/-- Success envelope whose `items.item` is a single object. -/
def okEnvSingle : Envelope Nat :=
  { header := { resultCode := "0000" }, body := some { items := some ⟨.single 7⟩ } }

/-- Success envelope whose `items.item` is an array. -/
def okEnvArr : Envelope Nat :=
  { header := { resultCode := "0000" }, body := some { items := some ⟨.arr [1, 2, 3]⟩ } }

/-- Witness for C4: the absent/single/array cases at concrete envelopes. -/
theorem c4_parse_success_witness :
    parseAPIResponse okEnvNoBody = .ok [] ∧
    parseAPIResponse okEnvNoItems = .ok [] ∧
    parseAPIResponse okEnvSingle = .ok [7] ∧
    parseAPIResponse okEnvArr = .ok [1, 2, 3] :=
  ⟨(c4_parse_success okEnvNoBody rfl).1 rfl,
   (c4_parse_success okEnvNoItems rfl).2.1 _ rfl rfl,
   (c4_parse_success okEnvSingle rfl).2.2.2.1 _ _ 7 rfl rfl rfl,
   (c4_parse_success okEnvArr rfl).2.2.2.2 _ _ [1, 2, 3] rfl rfl rfl⟩

-- ==============================================
-- Claim C5: searchKeyword validation precedes any network call
-- ==============================================

/-- C5: for every keyword that is missing, empty, or whitespace-only
after trimming, `searchKeyword` fails with the `VALIDATION_ERROR`-kind
error and performs zero transport invocations (the result is the same
for every transport and the attempt count is 0). -/
theorem c5_search_keyword_validation (env : Env) (params : SearchKeywordParams)
    (fetchf : Transport (Envelope TourItem))
    (h : params.keyword = none ∨ jsTrim (params.keyword.getD "") = "") :
    searchKeyword env params fetchf = (.error keywordValidationError, 0) ∧
    keywordValidationError.errorType = .VALIDATION_ERROR := by
  refine ⟨?_, rfl⟩
  rcases h with h | h
  · simp [searchKeyword, h, strFalsy]
  · simp [searchKeyword, h]

/-- An environment with a configured service key. -/
def envKey : Env := { NEXT_PUBLIC_TOUR_API_KEY := some "key" }

/-- A transport for the search endpoint that would time out if reached. -/
def wSearch : Transport (Envelope TourItem) := fun _ _ => .abortError

/-- Witness for C5: the empty keyword, a whitespace-only keyword and a
missing keyword all fail with the validation error and zero attempts. -/
theorem c5_search_keyword_validation_witness :
    (searchKeyword envKey { keyword := some "" } wSearch =
        (.error keywordValidationError, 0) ∧
      keywordValidationError.errorType = .VALIDATION_ERROR) ∧
    (searchKeyword envKey { keyword := some "   " } wSearch =
        (.error keywordValidationError, 0) ∧
      keywordValidationError.errorType = .VALIDATION_ERROR) ∧
    (searchKeyword envKey { keyword := none } wSearch =
        (.error keywordValidationError, 0) ∧
      keywordValidationError.errorType = .VALIDATION_ERROR) :=
  ⟨c5_search_keyword_validation envKey _ wSearch (Or.inr (by decide)),
   c5_search_keyword_validation envKey _ wSearch (Or.inr (by decide)),
   c5_search_keyword_validation envKey _ wSearch (Or.inl rfl)⟩

-- ==============================================
-- Claim C6: single-entity lookups (validation and "not found")
-- ==============================================

/-- Success envelope with no records, detail payload. -/
def emptyDetailEnv : Envelope TourDetail := { header := { resultCode := "0000" } }

/-- Success envelope with no records, intro payload. -/
def emptyIntroEnv : Envelope TourIntro := { header := { resultCode := "0000" } }

/-- Success envelope with no records, pet-info payload. -/
def emptyPetEnv : Envelope PetTourInfo := { header := { resultCode := "0000" } }

/-- Transport always answering 200/OK with an empty detail envelope. -/
def fDetailEmpty : Transport (Envelope TourDetail) := fun _ _ => .resp ⟨200, "OK", emptyDetailEnv⟩

/-- Transport always answering 200/OK with an empty intro envelope. -/
def fIntroEmpty : Transport (Envelope TourIntro) := fun _ _ => .resp ⟨200, "OK", emptyIntroEnv⟩

/-- Transport always answering 200/OK with an empty pet-info envelope. -/
def fPetEmpty : Transport (Envelope PetTourInfo) := fun _ _ => .resp ⟨200, "OK", emptyPetEnv⟩

/-- C6 counterexample: when the upstream returns zero matching records,
`getDetailCommon` fails with the "not found" error whose kind is the
default `UNKNOWN_ERROR`, not `API_ERROR` as the claim states. -/
theorem c6_counterexample :
    (getDetailCommon envKey ⟨"10"⟩ fDetailEmpty).1 = .error detailNotFoundError ∧
    detailNotFoundError.errorType = .UNKNOWN_ERROR ∧
    ¬ (detailNotFoundError.errorType = .API_ERROR) := by
  decide

/-- C6 (amended): each single-entity lookup (`getDetailCommon`,
`getDetailIntro`, `getDetailPetTour`) fails with a `VALIDATION_ERROR`
when its required identifier is empty or whitespace (before any network
call), and fails with its "not found" `TourAPIError` — whose kind is the
constructor default `UNKNOWN_ERROR`, not `API_ERROR` — when the upstream
returns a success envelope with zero matching records. -/
theorem c6_detail_lookup_errors (env : Env) :
    (∀ (cid : String) (f : Transport (Envelope TourDetail)), jsTrim cid = "" →
      getDetailCommon env ⟨cid⟩ f = (.error contentIdValidationError, 0)) ∧
    (∀ (cid ctid : String) (f : Transport (Envelope TourIntro)), jsTrim cid = "" →
      getDetailIntro env ⟨cid, ctid⟩ f = (.error contentIdValidationError, 0)) ∧
    (∀ (cid ctid : String) (f : Transport (Envelope TourIntro)),
      jsTrim cid ≠ "" → jsTrim ctid = "" →
      getDetailIntro env ⟨cid, ctid⟩ f = (.error contentTypeIdValidationError, 0)) ∧
    (∀ (cid : String) (f : Transport (Envelope PetTourInfo)), jsTrim cid = "" →
      getDetailPetTour env ⟨cid⟩ f = (.error contentIdValidationError, 0)) ∧
    contentIdValidationError.errorType = .VALIDATION_ERROR ∧
    contentTypeIdValidationError.errorType = .VALIDATION_ERROR ∧
    (∀ (key cid : String) (env0 : Envelope TourDetail),
      getServiceKey env = .ok key → jsTrim cid ≠ "" →
      parseAPIResponse env0 = .ok ([] : List TourDetail) →
      getDetailCommon env ⟨cid⟩ (fun _ _ => .resp ⟨200, "OK", env0⟩) =
        (.error detailNotFoundError, 1)) ∧
    (∀ (key cid ctid : String) (env0 : Envelope TourIntro),
      getServiceKey env = .ok key → jsTrim cid ≠ "" → jsTrim ctid ≠ "" →
      parseAPIResponse env0 = .ok ([] : List TourIntro) →
      getDetailIntro env ⟨cid, ctid⟩ (fun _ _ => .resp ⟨200, "OK", env0⟩) =
        (.error introNotFoundError, 1)) ∧
    (∀ (key cid : String) (env0 : Envelope PetTourInfo),
      getServiceKey env = .ok key → jsTrim cid ≠ "" →
      parseAPIResponse env0 = .ok ([] : List PetTourInfo) →
      getDetailPetTour env ⟨cid⟩ (fun _ _ => .resp ⟨200, "OK", env0⟩) =
        (.error petNotFoundError, 1)) ∧
    detailNotFoundError.errorType = .UNKNOWN_ERROR ∧
    introNotFoundError.errorType = .UNKNOWN_ERROR ∧
    petNotFoundError.errorType = .UNKNOWN_ERROR := by
  have hfetch : ∀ (β : Type) (env0 : β),
      fetchWithRetry (β := β) (fun _ => .resp ⟨200, "OK", env0⟩) =
        { result := .ok ⟨200, "OK", env0⟩, attempts := 1, delays := [] } := by
    intro β env0
    exact fetchWithRetryAux_ok _ _ _ _ rfl
  have hne : ∀ cid : String, jsTrim cid ≠ "" → cid ≠ "" := by
    intro cid h hc
    exact h (by rw [hc]; rfl)
  refine ⟨?_, ?_, ?_, ?_, rfl, rfl, ?_, ?_, ?_, rfl, rfl, rfl⟩
  · intro cid f h; simp [getDetailCommon, h]
  · intro cid ctid f h; simp [getDetailIntro, h]
  · intro cid ctid f hcid h
    simp [getDetailIntro, h, hcid, hne cid hcid]
  · intro cid f h; simp [getDetailPetTour, h]
  · intro key cid env0 hkey hcid hp
    simp [getDetailCommon, hcid, hne cid hcid, getCommonParams, hkey, hfetch, hp]
  · intro key cid ctid env0 hkey hcid hct hp
    simp [getDetailIntro, hcid, hne cid hcid, hct, hne ctid hct,
      getCommonParams, hkey, hfetch, hp]
  · intro key cid env0 hkey hcid hp
    simp [getDetailPetTour, hcid, hne cid hcid, getCommonParams, hkey, hfetch, hp]

/-- Witness for C6: every part of `c6_detail_lookup_errors` at concrete
inputs (whitespace identifiers, and empty success envelopes). -/
theorem c6_detail_lookup_errors_witness :
    getDetailCommon envKey ⟨"   "⟩ fDetailEmpty = (.error contentIdValidationError, 0) ∧
    getDetailIntro envKey ⟨"", "12"⟩ fIntroEmpty = (.error contentIdValidationError, 0) ∧
    getDetailIntro envKey ⟨"10", " "⟩ fIntroEmpty = (.error contentTypeIdValidationError, 0) ∧
    getDetailPetTour envKey ⟨"   "⟩ fPetEmpty = (.error contentIdValidationError, 0) ∧
    getDetailCommon envKey ⟨"10"⟩ (fun _ _ => .resp ⟨200, "OK", emptyDetailEnv⟩) =
      (.error detailNotFoundError, 1) ∧
    getDetailIntro envKey ⟨"10", "12"⟩ (fun _ _ => .resp ⟨200, "OK", emptyIntroEnv⟩) =
      (.error introNotFoundError, 1) ∧
    getDetailPetTour envKey ⟨"10"⟩ (fun _ _ => .resp ⟨200, "OK", emptyPetEnv⟩) =
      (.error petNotFoundError, 1) :=
  ⟨(c6_detail_lookup_errors envKey).1 "   " fDetailEmpty (by decide),
   (c6_detail_lookup_errors envKey).2.1 "" "12" fIntroEmpty (by decide),
   (c6_detail_lookup_errors envKey).2.2.1 "10" " " fIntroEmpty (by decide) (by decide),
   (c6_detail_lookup_errors envKey).2.2.2.1 "   " fPetEmpty (by decide),
   (c6_detail_lookup_errors envKey).2.2.2.2.2.2.1 "key" "10" emptyDetailEnv rfl
     (by decide) (by decide),
   (c6_detail_lookup_errors envKey).2.2.2.2.2.2.2.1 "key" "10" "12" emptyIntroEnv rfl
     (by decide) (by decide) (by decide),
   (c6_detail_lookup_errors envKey).2.2.2.2.2.2.2.2.1 "key" "10" emptyPetEnv rfl
     (by decide) (by decide)⟩

-- ==============================================
-- Helper lemmas for the statistics claims
-- ==============================================

/-- `pctCents` agrees with exact rational rounding of
`count / total * 100` to two decimals (half-up). -/
theorem pctCents_eq_floor (c t : ℕ) (ht : t ≠ 0) :
    (mkRat (pctCents c t) 100 : ℚ) =
      ((⌊(c : ℚ) / (t : ℚ) * 100 * 100 + 1 / 2⌋ : ℤ) : ℚ) / 100 := by
  have htq : (t : ℚ) ≠ 0 := Nat.cast_ne_zero.mpr ht
  have hx : (c : ℚ) / (t : ℚ) * 100 * 100 + 1 / 2 =
      (((20000 * c + t : ℕ) : ℤ) : ℚ) / ((2 * t : ℕ) : ℚ) := by
    push_cast
    field_simp
    ring
  have key : ⌊(c : ℚ) / (t : ℚ) * 100 * 100 + 1 / 2⌋ = (pctCents c t : ℤ) := by
    rw [hx, Rat.floor_intCast_div_natCast]
    rw [pctCents]
    rw [Int.natCast_div]
  rw [key, Rat.mkRat_eq_divInt, Rat.divInt_eq_div]
  norm_num

/-- The `reduce`-style fold over type-stat counts is the sum of counts. -/
theorem foldl_count_eq_sum (l : List TypeStats) (n : Nat) :
    l.foldl (fun sum stat => sum + stat.count) n = n + (l.map TypeStats.count).sum := by
  induction l generalizing n with
  | nil => simp
  | cons x xs ih => simp [ih, Nat.add_assoc]

/-- Every stat produced by the per-type task has `percentage = 0`. -/
theorem typeStatOf_percentage (env : Env) (f : Transport (Envelope TourItem))
    (ct : String) (st : TypeStats) (h : typeStatOf env f ct = some st) :
    st.percentage = 0 := by
  unfold typeStatOf at h
  rcases hr : (getAreaBasedList env
      { contentTypeId := some ct, numOfRows := some 1, pageNo := some 1 } f).1 with e | r <;>
    rw [hr] at h
  · cases h
  · cases h
    rfl

/-- Membership in `sortInsert`. -/
theorem mem_sortInsert {α : Type} (le : α → α → Bool) (x z : α) (l : List α) :
    z ∈ sortInsert le x l ↔ z = x ∨ z ∈ l := by
  induction l with
  | nil => simp [sortInsert]
  | cons y ys ih =>
      by_cases h : le x y = true
      · simp [sortInsert, h, ih]
      · simp [sortInsert, h, ih]
        tauto

/-- `sortInsert` preserves sortedness for a total transitive comparator. -/
theorem pairwise_sortInsert {α : Type} (le : α → α → Bool)
    (htrans : ∀ a b c, le a b = true → le b c = true → le a c = true)
    (htot : ∀ a b, le a b = false → le b a = true) (x : α) (l : List α)
    (h : l.Pairwise (fun a b => le a b = true)) :
    (sortInsert le x l).Pairwise (fun a b => le a b = true) := by
  induction l with
  | nil => simp [sortInsert]
  | cons y ys ih =>
      rcases List.pairwise_cons.mp h with ⟨hy, hys⟩
      by_cases hxy : le x y = true
      · rw [sortInsert, if_pos hxy]
        refine List.pairwise_cons.mpr ⟨?_, h⟩
        intro z hz
        rcases List.mem_cons.mp hz with hzy | hz'
        · rw [hzy]; exact hxy
        · exact htrans x y z hxy (hy z hz')
      · rw [sortInsert, if_neg hxy]
        refine List.pairwise_cons.mpr ⟨?_, ih hys⟩
        intro z hz
        rcases (mem_sortInsert le x z ys).mp hz with hzx | hz'
        · rw [hzx]
          exact htot x y (Bool.eq_false_iff.mpr hxy)
        · exact hy z hz'

/-- `sortBy` sorts with respect to a total transitive comparator. -/
theorem pairwise_sortBy {α : Type} (le : α → α → Bool)
    (htrans : ∀ a b c, le a b = true → le b c = true → le a c = true)
    (htot : ∀ a b, le a b = false → le b a = true) (l : List α) :
    (sortBy le l).Pairwise (fun a b => le a b = true) := by
  induction l with
  | nil => simp [sortBy]
  | cons x xs ih => exact pairwise_sortInsert le htrans htot x _ ih

/-- `sortInsert` adds one element to the length. -/
theorem length_sortInsert {α : Type} (le : α → α → Bool) (x : α) (l : List α) :
    (sortInsert le x l).length = l.length + 1 := by
  induction l with
  | nil => rfl
  | cons y ys ih => by_cases h : le x y = true <;> simp [sortInsert, h, ih]

/-- `sortBy` preserves length. -/
theorem length_sortBy {α : Type} (le : α → α → Bool) (l : List α) :
    (sortBy le l).length = l.length := by
  induction l with
  | nil => rfl
  | cons x xs ih => simp [sortBy, length_sortInsert, ih]

-- ==============================================
-- Claim C7: getRegionStats partial-failure tolerance
-- ==============================================

/-- C7: a failing per-region listing call only omits that region from
the result (the successes are kept, in order, via `filterMap` over
`regionStatOf`), and `getRegionStats` fails as a whole exactly when the
initial area-code lookup fails, with that same error. -/
theorem c7_region_stats_partial_failure (env : Env)
    (fetchArea : Transport (Envelope AreaCode))
    (fetchList : Transport (Envelope TourItem)) :
    (∀ e, (getAreaCode env { numOfRows := some 100, pageNo := some 1 } fetchArea).1 = .error e →
      getRegionStats env fetchArea fetchList = .error e) ∧
    (∀ l, (getAreaCode env { numOfRows := some 100, pageNo := some 1 } fetchArea).1 = .ok l →
      getRegionStats env fetchArea fetchList = .ok (l.filterMap (regionStatOf env fetchList))) := by
  constructor
  · intro e he
    simp [getRegionStats, he]
  · intro l hl
    cases l with
    | nil => simp [getRegionStats, hl]
    | cons a as => simp [getRegionStats, hl]

/-- The three-region area-code list used by the statistics witnesses. -/
def areaListC : List AreaCode := [⟨"1", "서울", none⟩, ⟨"2", "부산", none⟩, ⟨"3", "대구", none⟩]

/-- Success envelope listing the three witness regions. -/
def areaEnvC : Envelope AreaCode :=
  { header := { resultCode := "0000" }, body := some { items := some ⟨.arr areaListC⟩ } }

/-- Area-code transport answering the three witness regions. -/
def fAreaC : Transport (Envelope AreaCode) := fun _ _ => .resp ⟨200, "OK", areaEnvC⟩

/-- Area-code transport whose every attempt fails at the network level. -/
def fAreaFail : Transport (Envelope AreaCode) := fun _ _ => .jsError true "fetch failed"

/-- Success envelope with no items and the given `totalCount`. -/
def listEnvC (n : Nat) : Envelope TourItem :=
  { header := { resultCode := "0000" }, body := some { totalCount := some n } }

/-- Listing transport: fails (HTTP 500) for region "2", reports
`totalCount = 500` for content type "39" and `totalCount = 150`
otherwise. -/
def fListC : Transport (Envelope TourItem) := fun url _ =>
  if containsSub url "areaCode=2" then .resp ⟨500, "Server Error", listEnvC 0⟩
  else if containsSub url "contentTypeId=39" then .resp ⟨200, "OK", listEnvC 500⟩
  else .resp ⟨200, "OK", listEnvC 150⟩

/-- Witness for C7: with three regions of which the second's listing
call fails with HTTP 500, the aggregate still succeeds and returns
exactly the other two regions; and when the area-code lookup itself
fails, the aggregate fails with that lookup's error. -/
theorem c7_region_stats_partial_failure_witness :
    ((getAreaCode envKey { numOfRows := some 100, pageNo := some 1 } fAreaC).1 = .ok areaListC ∧
      getRegionStats envKey fAreaC fListC =
        .ok (areaListC.filterMap (regionStatOf envKey fListC)) ∧
      areaListC.filterMap (regionStatOf envKey fListC) =
        [⟨"1", "서울", 150⟩, ⟨"3", "대구", 150⟩]) ∧
    ((getAreaCode envKey { numOfRows := some 100, pageNo := some 1 } fAreaFail).1 =
        .error { message := "요청 실패 (4회 시도): fetch failed"
                 originalMessage := some "fetch failed"
                 errorType := .NETWORK_ERROR } ∧
      getRegionStats envKey fAreaFail fListC =
        .error { message := "요청 실패 (4회 시도): fetch failed"
                 originalMessage := some "fetch failed"
                 errorType := .NETWORK_ERROR }) :=
  ⟨⟨by decide,
    (c7_region_stats_partial_failure envKey fAreaC fListC).2 areaListC (by decide),
    by decide⟩,
   ⟨by decide,
    (c7_region_stats_partial_failure envKey fAreaFail fListC).1 _ (by decide)⟩⟩

/-- Rewriting every `percentage` field leaves the counts unchanged. -/
theorem map_count_set_percentage (l : List TypeStats) (g : TypeStats → ℚ) :
    (l.map fun stat => { stat with percentage := g stat }).map TypeStats.count =
      l.map TypeStats.count := by
  rw [List.map_map]
  rfl

-- ==============================================
-- Claim C8: getTypeStats percentages
-- ==============================================

/-- C8: `getTypeStats` issues one count query per each of the 8 fixed
content types, omits the types whose query failed (the returned counts
are exactly those of the successful per-type tasks, in order), and every
returned stat's percentage equals its count divided by the sum of the
returned counts, times 100, rounded half-up to two decimals — or 0 for
every stat when that sum is zero. -/
theorem c8_type_stats_percentages (env : Env) (f : Transport (Envelope TourItem)) :
    CONTENT_TYPE_values.length = 8 ∧
    ∀ l, getTypeStats env f = .ok l →
      l.map TypeStats.count =
        (CONTENT_TYPE_values.filterMap (typeStatOf env f)).map TypeStats.count ∧
      ∀ st ∈ l,
        st.percentage =
          if (l.map TypeStats.count).sum = 0 then 0
          else ((⌊(st.count : ℚ) / (((l.map TypeStats.count).sum : ℕ) : ℚ) * 100 * 100 +
            1 / 2⌋ : ℤ) : ℚ) / 100 := by
  refine ⟨rfl, ?_⟩
  intro l hl
  simp only [getTypeStats] at hl
  rw [foldl_count_eq_sum] at hl
  simp only [Nat.zero_add] at hl
  by_cases h0 :
      ((CONTENT_TYPE_values.filterMap (typeStatOf env f)).map TypeStats.count).sum = 0
  · rw [if_pos (beq_iff_eq.mpr h0)] at hl
    obtain rfl : CONTENT_TYPE_values.filterMap (typeStatOf env f) = l := Except.ok.inj hl
    refine ⟨rfl, ?_⟩
    intro st hst
    rw [if_pos h0]
    rcases List.mem_filterMap.mp hst with ⟨ct, _, hct⟩
    exact typeStatOf_percentage env f ct st hct
  · rw [if_neg (fun hh => h0 (beq_iff_eq.mp hh))] at hl
    obtain rfl := Except.ok.inj hl
    refine ⟨map_count_set_percentage _ _, ?_⟩
    intro st hst
    rw [map_count_set_percentage, if_neg h0]
    rcases List.mem_map.mp hst with ⟨st0, _, hfn⟩
    rw [← hfn]
    exact pctCents_eq_floor st0.count _ h0

/-- The type stats returned against `fListC` (seven types at 150, the
restaurant type "39" at 500; total 1550). -/
def tsC : List TypeStats :=
  [⟨"12", "관광지", 150, mkRat 968 100⟩, ⟨"14", "문화시설", 150, mkRat 968 100⟩,
   ⟨"15", "축제/행사", 150, mkRat 968 100⟩, ⟨"25", "여행코스", 150, mkRat 968 100⟩,
   ⟨"28", "레포츠", 150, mkRat 968 100⟩, ⟨"32", "숙박", 150, mkRat 968 100⟩,
   ⟨"38", "쇼핑", 150, mkRat 968 100⟩, ⟨"39", "음식점", 500, mkRat 3226 100⟩]

/-- Listing transport failing for content type "15" (network error) and
reporting `totalCount = 100` otherwise. -/
def fListTFail : Transport (Envelope TourItem) := fun url _ =>
  if containsSub url "contentTypeId=15" then .jsError true "fetch failed"
  else .resp ⟨200, "OK", listEnvC 100⟩

/-- Listing transport reporting `totalCount = 0` for every query. -/
def fListZero : Transport (Envelope TourItem) := fun _ _ => .resp ⟨200, "OK", listEnvC 0⟩

/-- Witness for C8: the formula at the mixed scenario (type "39" at 500,
others at 150 → 32.26% / 9.68%), the partial-failure scenario (type "15"
fails, the other 7 stats are returned with percentages over the
successful subset: each 100/700 → 14.29%), and the zero-total scenario
(all counts 0, percentages left at 0). -/
theorem c8_type_stats_percentages_witness :
    (getTypeStats envKey fListC = .ok tsC ∧
      tsC.map TypeStats.count =
        (CONTENT_TYPE_values.filterMap (typeStatOf envKey fListC)).map TypeStats.count ∧
      ∀ st ∈ tsC,
        st.percentage =
          if (tsC.map TypeStats.count).sum = 0 then 0
          else ((⌊(st.count : ℚ) / (((tsC.map TypeStats.count).sum : ℕ) : ℚ) * 100 * 100 +
            1 / 2⌋ : ℤ) : ℚ) / 100) ∧
    getTypeStats envKey fListTFail =
      .ok [⟨"12", "관광지", 100, mkRat 1429 100⟩, ⟨"14", "문화시설", 100, mkRat 1429 100⟩,
           ⟨"25", "여행코스", 100, mkRat 1429 100⟩, ⟨"28", "레포츠", 100, mkRat 1429 100⟩,
           ⟨"32", "숙박", 100, mkRat 1429 100⟩, ⟨"38", "쇼핑", 100, mkRat 1429 100⟩,
           ⟨"39", "음식점", 100, mkRat 1429 100⟩] ∧
    getTypeStats envKey fListZero =
      .ok [⟨"12", "관광지", 0, 0⟩, ⟨"14", "문화시설", 0, 0⟩, ⟨"15", "축제/행사", 0, 0⟩,
           ⟨"25", "여행코스", 0, 0⟩, ⟨"28", "레포츠", 0, 0⟩, ⟨"32", "숙박", 0, 0⟩,
           ⟨"38", "쇼핑", 0, 0⟩, ⟨"39", "음식점", 0, 0⟩] :=
  ⟨⟨by decide, (c8_type_stats_percentages envKey fListC).2 tsC (by decide)⟩,
   by decide, by decide⟩

-- ==============================================
-- Claim C9: getStatsSummary ordering, lengths, total
-- ==============================================

/-- C9: `getStatsSummary` returns `topRegions` and `topTypes` sorted in
descending order of `count` with length `min 3 (available)`, and its
`totalCount` is the sum of the type counts (not the region counts). -/
theorem c9_stats_summary (env : Env) (fetchArea : Transport (Envelope AreaCode))
    (fetchList : Transport (Envelope TourItem)) (s : StatsSummary)
    (hs : getStatsSummary env fetchArea fetchList = .ok s) :
    s.topRegions.Pairwise (fun a b => b.count ≤ a.count) ∧
    s.topTypes.Pairwise (fun a b => b.count ≤ a.count) ∧
    (∀ rs, getRegionStats env fetchArea fetchList = .ok rs →
      s.topRegions.length = min 3 rs.length) ∧
    (∀ ts, getTypeStats env fetchList = .ok ts →
      s.topTypes.length = min 3 ts.length ∧
      s.totalCount = (ts.map TypeStats.count).sum) := by
  unfold getStatsSummary at hs
  rcases hr : getRegionStats env fetchArea fetchList with e | rs <;> rw [hr] at hs
  · simp at hs
  rcases ht : getTypeStats env fetchList with e | ts <;> rw [ht] at hs
  · simp at hs
  obtain rfl := Except.ok.inj hs
  have hrtrans : ∀ a b c : RegionStats,
      regionDesc a b = true → regionDesc b c = true → regionDesc a c = true := by
    intro a b c hab hbc
    simp only [regionDesc, decide_eq_true_eq] at *
    omega
  have hrtot : ∀ a b : RegionStats, regionDesc a b = false → regionDesc b a = true := by
    intro a b hab
    simp only [regionDesc, decide_eq_true_eq, decide_eq_false_iff_not] at *
    omega
  have httrans : ∀ a b c : TypeStats,
      typeDesc a b = true → typeDesc b c = true → typeDesc a c = true := by
    intro a b c hab hbc
    simp only [typeDesc, decide_eq_true_eq] at *
    omega
  have httot : ∀ a b : TypeStats, typeDesc a b = false → typeDesc b a = true := by
    intro a b hab
    simp only [typeDesc, decide_eq_true_eq, decide_eq_false_iff_not] at *
    omega
  refine ⟨?_, ?_, ?_, ?_⟩
  · have hp := pairwise_sortBy regionDesc hrtrans hrtot rs
    have := List.Pairwise.sublist (List.take_sublist 3 _) hp
    exact this.imp fun h => by simpa [regionDesc] using h
  · have hp := pairwise_sortBy typeDesc httrans httot ts
    have := List.Pairwise.sublist (List.take_sublist 3 _) hp
    exact this.imp fun h => by simpa [typeDesc] using h
  · intro rs' hr'
    obtain rfl := Except.ok.inj hr'
    show ((sortBy regionDesc rs).take 3).length = min 3 rs.length
    rw [List.length_take, length_sortBy]
  · intro ts' ht'
    obtain rfl := Except.ok.inj ht'
    constructor
    · show ((sortBy typeDesc ts).take 3).length = min 3 ts.length
      rw [List.length_take, length_sortBy]
    · show ts.foldl (fun sum stat => sum + stat.count) 0 = (ts.map TypeStats.count).sum
      rw [foldl_count_eq_sum, Nat.zero_add]

/-- The region stats returned against `fAreaC`/`fListC`. -/
def rsC : List RegionStats := [⟨"1", "서울", 150⟩, ⟨"3", "대구", 150⟩]

/-- The summary returned against `fAreaC`/`fListC`: type "39" leads the
type ranking, the region ranking keeps both surviving regions, and the
total is the type-count sum 1550. -/
def sC : StatsSummary :=
  { totalCount := 1550
    topRegions := rsC
    topTypes := [⟨"39", "음식점", 500, mkRat 3226 100⟩, ⟨"12", "관광지", 150, mkRat 968 100⟩,
                 ⟨"14", "문화시설", 150, mkRat 968 100⟩] }

/-- Witness for C9: `c9_stats_summary` at the concrete mixed scenario. -/
theorem c9_stats_summary_witness :
    getStatsSummary envKey fAreaC fListC = .ok sC ∧
    sC.topRegions.Pairwise (fun a b => b.count ≤ a.count) ∧
    sC.topTypes.Pairwise (fun a b => b.count ≤ a.count) ∧
    sC.topRegions.length = min 3 rsC.length ∧
    sC.topTypes.length = min 3 tsC.length ∧
    sC.totalCount = (tsC.map TypeStats.count).sum := by
  have h : getStatsSummary envKey fAreaC fListC = .ok sC := by decide
  have main := c9_stats_summary envKey fAreaC fListC sC h
  exact ⟨h, main.1, main.2.1, main.2.2.1 rsC (by decide),
    (main.2.2.2 tsC (by decide)).1, (main.2.2.2 tsC (by decide)).2⟩

-- ==============================================
-- Claim C10: a page parameter of 0 falls back to the defaults
-- ==============================================

/-- C10: for every operation accepting optional `numOfRows`/`pageNo`
(`getAreaCode`, `getAreaBasedList`, `searchKeyword`, `getDetailImage`),
a caller-supplied 0 is replaced by the defaults (`numOfRows = 10`,
`pageNo = 1`) by the `||`-fallback before the URL is built, so a request
for zero rows is indistinguishable from omitting the parameters: the
whole operation (URL, transport interaction, result, attempt count) is
identical. -/
theorem c10_zero_paging_defaults (env : Env) (a c k : Option String) (cid : String)
    (fA : Transport (Envelope AreaCode)) (fL : Transport (Envelope TourItem))
    (fI : Transport (Envelope TourImage)) :
    jsNumOr (some 0) DEFAULT_NUM_OF_ROWS = DEFAULT_NUM_OF_ROWS ∧
    jsNumOr (some 0) DEFAULT_PAGE_NO = DEFAULT_PAGE_NO ∧
    getAreaCode env { numOfRows := some 0, pageNo := some 0 } fA =
      getAreaCode env {} fA ∧
    getAreaBasedList env
        { areaCode := a, contentTypeId := c, numOfRows := some 0, pageNo := some 0 } fL =
      getAreaBasedList env { areaCode := a, contentTypeId := c } fL ∧
    searchKeyword env
        { keyword := k, areaCode := a, contentTypeId := c,
          numOfRows := some 0, pageNo := some 0 } fL =
      searchKeyword env { keyword := k, areaCode := a, contentTypeId := c } fL ∧
    getDetailImage env { contentId := cid, numOfRows := some 0, pageNo := some 0 } fI =
      getDetailImage env { contentId := cid } fI :=
  ⟨rfl, rfl, rfl, rfl, rfl, rfl⟩

end TourApi
